import Mathlib

/-!
Verification of the mcp-server-slack repository: a shallow embedding of the
MCP JSON-RPC dispatch, the Duo OAuth2/PKCE flow manager, and the bearer-token
introspection gate, across the four transport variants found in the source
(WebSocket, plain HTTP, Duo HTTP, Duo SSE).
-/

/- ===== 32-bit arithmetic helpers (machine words modelled as Nat mod 2^32) ===== -/

def add32 (a b : Nat) : Nat := (a + b) % 4294967296

def rotr32 (n x : Nat) : Nat := ((x >>> n) ||| (x <<< (32 - n))) % 4294967296

def not32 (x : Nat) : Nat := x ^^^ 4294967295

/- ===== SHA-256 (the crypto.createHash sha256 primitive used by the source) ===== -/

def sha256K : List Nat :=
  [1116352408, 1899447441, 3049323471, 3921009573, 961987163,
   1508970993, 2453635748, 2870763221, 3624381080, 310598401,
   607225278, 1426881987, 1925078388, 2162078206, 2614888103,
   3248222580, 3835390401, 4022224774, 264347078, 604807628,
   770255983, 1249150122, 1555081692, 1996064986, 2554220882,
   2821834349, 2952996808, 3210313671, 3336571891, 3584528711,
   113926993, 338241895, 666307205, 773529912, 1294757372,
   1396182291, 1695183700, 1986661051, 2177026350, 2456956037,
   2730485921, 2820302411, 3259730800, 3345764771, 3516065817,
   3600352804, 4094571909, 275423344, 430227734, 506948616,
   659060556, 883997877, 958139571, 1322822218, 1537002063,
   1747873779, 1955562222, 2024104815, 2227730452, 2361852424,
   2428436474, 2756734187, 3204031479, 3329325298]

def sha256H0 : List Nat :=
  [1779033703, 3144134277, 1013904242, 2773480762,
   1359893119, 2600822924, 528734635, 1541459225]

def be64 (n : Nat) : List Nat :=
  [(n >>> 56) % 256, (n >>> 48) % 256, (n >>> 40) % 256, (n >>> 32) % 256,
   (n >>> 24) % 256, (n >>> 16) % 256, (n >>> 8) % 256, n % 256]

def be32 (n : Nat) : List Nat :=
  [(n >>> 24) % 256, (n >>> 16) % 256, (n >>> 8) % 256, n % 256]

def bytesToWords : List Nat → List Nat
  | a :: b :: c :: d :: rest => (a * 16777216 + b * 65536 + c * 256 + d) :: bytesToWords rest
  | _ => []

def chunk16 : List Nat → List (List Nat)
  | [] => []
  | x :: xs => ((x :: xs).take 16) :: chunk16 ((x :: xs).drop 16)
termination_by l => l.length
decreasing_by simp [List.length_drop]; omega

def scheduleStep (w : List Nat) : List Nat :=
  let n := w.length
  let x15 := w.getD (n - 15) 0
  let x2 := w.getD (n - 2) 0
  let s0 := (rotr32 7 x15) ^^^ (rotr32 18 x15) ^^^ (x15 >>> 3)
  let s1 := (rotr32 17 x2) ^^^ (rotr32 19 x2) ^^^ (x2 >>> 10)
  w ++ [(w.getD (n - 16) 0 + s0 + w.getD (n - 7) 0 + s1) % 4294967296]

def buildSchedule (w : List Nat) : List Nat :=
  (List.range 48).foldl (fun acc _ => scheduleStep acc) w

def compressStep (st : List Nat) (wk : Nat × Nat) : List Nat :=
  match st with
  | [a, b, c, d, e, f, g, h] =>
    let S1 := (rotr32 6 e) ^^^ (rotr32 11 e) ^^^ (rotr32 25 e)
    let ch := (e &&& f) ^^^ ((not32 e) &&& g)
    let temp1 := (h + S1 + ch + wk.2 + wk.1) % 4294967296
    let S0 := (rotr32 2 a) ^^^ (rotr32 13 a) ^^^ (rotr32 22 a)
    let maj := (a &&& b) ^^^ (a &&& c) ^^^ (b &&& c)
    let temp2 := (S0 + maj) % 4294967296
    [(temp1 + temp2) % 4294967296, a, b, c, (d + temp1) % 4294967296, e, f, g]
  | _ => st

def sha256 (msg : List Nat) : List Nat :=
  let padZeros := (119 - msg.length % 64) % 64
  let padded := msg ++ 0x80 :: (List.replicate padZeros 0 ++ be64 (msg.length * 8))
  let blocks := chunk16 (bytesToWords padded)
  let finalH := blocks.foldl
    (fun H block =>
      let w := buildSchedule block
      let st := (w.zip sha256K).foldl compressStep H
      List.zipWith add32 H st)
    sha256H0
  (finalH.map be32).flatten

/- ===== base64url (unpadded), hex, percent-encoding, string bytes ===== -/

def b64Char (n : Nat) : Char :=
  if n < 26 then Char.ofNat (65 + n)
  else if n < 52 then Char.ofNat (97 + (n - 26))
  else if n < 62 then Char.ofNat (48 + (n - 52))
  else if n = 62 then Char.ofNat 45
  else Char.ofNat 95

def base64urlChars : List Nat → List Char
  | [] => []
  | [a] => [b64Char (a >>> 2), b64Char ((a &&& 3) <<< 4)]
  | [a, b] => [b64Char (a >>> 2), b64Char (((a &&& 3) <<< 4) ||| (b >>> 4)), b64Char ((b &&& 15) <<< 2)]
  | a :: b :: c :: rest =>
      b64Char (a >>> 2) :: b64Char (((a &&& 3) <<< 4) ||| (b >>> 4)) ::
      b64Char (((b &&& 15) <<< 2) ||| (c >>> 6)) :: b64Char (c &&& 63) :: base64urlChars rest

def base64urlEncode (l : List Nat) : String := String.mk (base64urlChars l)

def hexDigit (n : Nat) : Char :=
  if n < 10 then Char.ofNat (48 + n) else Char.ofNat (87 + n)

def hexEncode (l : List Nat) : String :=
  String.mk ((l.map (fun b => [hexDigit (b / 16), hexDigit (b % 16)])).flatten)

def hexUpper (n : Nat) : Char :=
  if n < 10 then Char.ofNat (48 + n) else Char.ofNat (55 + n)

def uriUnreserved (c : Char) : Bool :=
  c.isAlphanum || c = Char.ofNat 45 || c = Char.ofNat 95 || c = Char.ofNat 46 ||
  c = Char.ofNat 33 || c = Char.ofNat 126 || c = Char.ofNat 42 || c = Char.ofNat 39 ||
  c = Char.ofNat 40 || c = Char.ofNat 41

def encodeURIComponent (s : String) : String :=
  String.mk ((s.data.map (fun c =>
    if uriUnreserved c then [c]
    else [Char.ofNat 37, hexUpper (c.toNat / 16), hexUpper (c.toNat % 16)])).flatten)

def strBytes (s : String) : List Nat := s.data.map Char.toNat

/- ===== JS split on a single space (authHeader.split in extractToken) ===== -/

def splitSpaceAux : List Char → List Char → List (List Char)
  | [], acc => [acc.reverse]
  | c :: rest, acc =>
      if c = Char.ofNat 32 then acc.reverse :: splitSpaceAux rest []
      else splitSpaceAux rest (c :: acc)

def splitSpace (s : String) : List String :=
  (splitSpaceAux s.data []).map String.mk

/- ===== JSON-RPC envelope model ===== -/

inductive RpcId
  | num (n : Int)
  | str (s : String)
  | null
deriving DecidableEq, Repr

structure ToolSpec where
  name : String
  required : List String
deriving DecidableEq, Repr

inductive RpcResult
  | initRes (protocolVersion serverName serverVersion : String)
  | toolsList (tools : List ToolSpec)
  | content (text : String) (isError : Bool)
deriving DecidableEq, Repr

inductive RpcMessage
  | result (id : RpcId) (r : RpcResult)
  | error (id : RpcId) (code : Int) (message : String)
deriving DecidableEq, Repr

/-- The params object of a tools/call request: params.name together with the
fields of params.arguments (channel_id/channel and text). -/
structure ToolCallParams where
  name : Option String
  channel : String
  text : String
deriving DecidableEq, Repr

structure McpRequest where
  method : String
  id : RpcId
  params : Option ToolCallParams
deriving DecidableEq, Repr

/-- Outcome of the outbound fetch to the Slack chat.postMessage collaborator:
a 2xx body with ok true and a ts, a body with ok false and an error string,
or a network or parse exception with its message. -/
inductive SlackOutcome
  | ok (ts : String)
  | apiError (e : String)
  | exn (m : String)
deriving DecidableEq, Repr

inductive HttpBody
  | rpc (m : RpcMessage)
  | ack
  | errObj (msg : String)
  | statusOk
  | htmlPage (success : Bool)
  | parseReject
deriving DecidableEq, Repr

structure HttpReply where
  status : Nat
  body : HttpBody
deriving DecidableEq, Repr

/- ===== WebSocket variant (server.js) ===== -/

/-- The ws.on message dispatch of server.js over a decoded request. The cases
where the JS handler throws (params destructuring on a missing params object)
are mapped to the catch branch, which sends the parse-error envelope. An
unknown tool or unknown method leaves response null and nothing is sent. -/
def wsDispatch (req : McpRequest) (slack : SlackOutcome) : Option RpcMessage :=
  if req.method = "initialize" then
    some (.result req.id (.initRes "2024-11-05" "slack-mcp" "1.0.0"))
  else if req.method = "tools/list" then
    some (.result req.id (.toolsList [⟨"slack_post_message", ["channel_id", "text"]⟩]))
  else if req.method = "tools/call" then
    match req.params with
    | none => some (.error .null (-32700) "Parse error")
    | some p =>
      if p.name = some "slack_post_message" then
        match slack with
        | .ok _ => some (.result req.id (.content ("Sent: \"" ++ p.text ++ "\"") false))
        | .apiError e => some (.result req.id (.content ("Error: " ++ e) true))
        | .exn m => some (.error req.id (-32000) m)
      else none
  else none

/-- The full message handling of server.js: a body that fails to decode is
answered by the catch branch with the parse-error envelope. -/
def wsHandleRaw (raw : Option McpRequest) (slack : SlackOutcome) : Option RpcMessage :=
  match raw with
  | none => some (.error .null (-32700) "Parse error")
  | some req => wsDispatch req slack

/- ===== plain HTTP variant (server-http.js, first file) ===== -/

/-- The POST /mcp handler of the plain HTTP variant. A body the express.json
middleware cannot decode is rejected with a default 400 before the handler
runs (modelled as parseReject), so the handler catch never fires for a decode
failure; a throw inside the handler (for example the params destructuring on
a missing params object) does reach the catch, which sends HTTP 500 with the
parse-error envelope; a null response falls to the 400 Method-not-found
branch. -/
def httpMcpPost (raw : Option McpRequest) (slack : SlackOutcome) : HttpReply :=
  match raw with
  | none => ⟨400, .parseReject⟩
  | some req =>
    if req.method = "initialize" then
      ⟨200, .rpc (.result req.id (.initRes "2024-11-05" "slack-mcp-http" "1.0.0"))⟩
    else if req.method = "tools/list" then
      ⟨200, .rpc (.result req.id (.toolsList [⟨"slack_post_message", ["channel_id", "text"]⟩]))⟩
    else if req.method = "tools/call" then
      match req.params with
      | none => ⟨500, .rpc (.error .null (-32700) "Parse error")⟩
      | some p =>
        if p.name = some "slack_post_message" then
          match slack with
          | .ok _ => ⟨200, .rpc (.result req.id (.content ("Sent: \"" ++ p.text ++ "\"") false))⟩
          | .apiError e => ⟨200, .rpc (.result req.id (.content ("Error: " ++ e) true))⟩
          | .exn m => ⟨200, .rpc (.error req.id (-32000) m)⟩
        else ⟨400, .rpc (.error req.id (-32601) "Method not found")⟩
    else if req.method = "notifications/initialized" then
      ⟨200, .ack⟩
    else ⟨400, .rpc (.error req.id (-32601) "Method not found")⟩

/- ===== Duo token introspection (shared by the Duo HTTP and Duo SSE variants) ===== -/

structure VerifiedIdentity where
  username : String
  displayName : String
  email : String
  expiresAt : Nat
deriving DecidableEq, Repr

inductive VerifyResult
  | invalid
  | valid (u : VerifiedIdentity)
deriving DecidableEq, Repr

/-- The JSON body of the introspection response. -/
structure IntroBody where
  active : Bool
  username : String
  display_name : Option String
  email : String
  exp : Nat
deriving DecidableEq, Repr

/-- Outcome of the outbound fetch to the introspection endpoint: a network
exception, or a response with an HTTP status and a body that either parses
or does not. -/
inductive FetchOutcome
  | netError
  | resp (status : Nat) (body : Option IntroBody)
deriving DecidableEq, Repr

def VerifyResult.isValid : VerifyResult → Bool
  | .invalid => false
  | .valid _ => true

/-- verifyDuoToken from server-http.js and the Duo SSE entrypoint: every
throw inside the try block (non-2xx status, inactive token, parse failure,
network error) is caught and collapsed to the invalid result; response.ok
is HTTP status in the 2xx range. display_name falls back to username when
absent or empty. -/
def verifyDuoToken : FetchOutcome → VerifyResult
  | .netError => .invalid
  | .resp status body =>
    if 200 ≤ status ∧ status < 300 then
      match body with
      | none => .invalid
      | some d =>
        if d.active then
          .valid ⟨d.username,
            (match d.display_name with
             | some s => if s = "" then d.username else s
             | none => d.username),
            d.email, d.exp⟩
        else .invalid
    else .invalid

/-- extractToken: returns the token only for a header of the exact two-part
form Bearer token; an absent or empty header, or a split with any other
shape, yields null. -/
def extractToken (authHeader : Option String) : Option String :=
  match authHeader with
  | none => none
  | some h =>
    if h = "" then none
    else
      let parts := splitSpace h
      if parts.length = 2 ∧ parts.headD "" = "Bearer" then some (parts.getD 1 "")
      else none

/- ===== Duo HTTP variant (server-http.js, second file) ===== -/

inductive AuthOutcome
  | pass (displayName : String) (email : Option String)
  | reject (reply : HttpReply)
deriving DecidableEq, Repr

/-- Result of the authenticateRequest middleware together with whether the
introspection network call was performed. -/
structure AuthResult where
  outcome : AuthOutcome
  introspected : Bool
deriving DecidableEq, Repr

/-- authenticateRequest from the Duo HTTP variant: with Duo disabled the gate
is skipped with an anonymous user; a missing or malformed Authorization
header is rejected with 401 before any network call; a failed introspection
is rejected with 401 after the call. -/
def authenticateRequest (duoEnabled : Bool) (authHeader : Option String)
    (fetch : FetchOutcome) : AuthResult :=
  if !duoEnabled then ⟨.pass "Anonymous User" none, false⟩
  else
    match extractToken authHeader with
    | none => ⟨.reject ⟨401, .rpc (.error .null (-32600) "Authorization token required")⟩, false⟩
    | some _ =>
      match verifyDuoToken fetch with
      | .invalid => ⟨.reject ⟨401, .rpc (.error .null (-32600) "Invalid or expired token")⟩, true⟩
      | .valid u => ⟨.pass u.displayName (some u.email), true⟩

/-- The POST /mcp dispatch of the Duo HTTP variant, after the middleware has
attached a user; mirrors the plain HTTP dispatch except for the server name
and the success message when Duo is enabled. As in the plain variant, a body
the express.json middleware cannot decode never reaches the handler and is
rejected with a default 400 (parseReject); only a throw inside the handler,
such as the params destructuring on a missing params object, reaches the
catch that emits the 500 parse-error envelope. -/
def duoHttpDispatch (duoEnabled : Bool) (userName : String)
    (raw : Option McpRequest) (slack : SlackOutcome) : HttpReply :=
  match raw with
  | none => ⟨400, .parseReject⟩
  | some req =>
    if req.method = "initialize" then
      ⟨200, .rpc (.result req.id (.initRes "2024-11-05" "slack-mcp-http-duo" "1.0.0"))⟩
    else if req.method = "tools/list" then
      ⟨200, .rpc (.result req.id (.toolsList [⟨"slack_post_message", ["channel_id", "text"]⟩]))⟩
    else if req.method = "tools/call" then
      match req.params with
      | none => ⟨500, .rpc (.error .null (-32700) "Parse error")⟩
      | some p =>
        if p.name = some "slack_post_message" then
          match slack with
          | .ok ts =>
            ⟨200, .rpc (.result req.id (.content
              (if duoEnabled then
                "Message posted successfully as " ++ userName ++ "\nChannel: " ++ p.channel ++
                "\nTimestamp: " ++ ts
               else "Sent: \"" ++ p.text ++ "\"") false))⟩
          | .apiError e => ⟨200, .rpc (.result req.id (.content ("Error: " ++ e) true))⟩
          | .exn m => ⟨200, .rpc (.error req.id (-32000) m)⟩
        else ⟨400, .rpc (.error req.id (-32601) "Method not found")⟩
    else if req.method = "notifications/initialized" then
      ⟨200, .ack⟩
    else ⟨400, .rpc (.error req.id (-32601) "Method not found")⟩

/-- The full Duo HTTP POST /mcp pipeline in middleware order: express.json
first (a malformed body is rejected 400 there, before authentication and
with no introspection call), then authenticateRequest, then the dispatch;
the Bool records whether the introspection call was made. -/
def duoHttpMcpPost (duoEnabled : Bool) (authHeader : Option String) (fetch : FetchOutcome)
    (raw : Option McpRequest) (slack : SlackOutcome) : HttpReply × Bool :=
  match raw with
  | none => (⟨400, .parseReject⟩, false)
  | some req =>
    let a := authenticateRequest duoEnabled authHeader fetch
    match a.outcome with
    | .reject r => (r, a.introspected)
    | .pass userName _ => (duoHttpDispatch duoEnabled userName (some req) slack, a.introspected)

/- ===== OAuth authorization-code flow manager (Duo SSE entrypoint) ===== -/

structure Session where
  codeVerifier : String
  timestamp : Nat
  authenticated : Bool
  accessToken : Option String := none
  refreshToken : Option String := none
  expiresAt : Option Nat := none
deriving DecidableEq, Repr

/-- The authSessions Map, keyed by the state string; list order models the
insertion order of the JS Map. -/
abbrev SessionMap := List (String × Session)

def findSession : SessionMap → String → Option Session
  | [], _ => none
  | (k, v) :: rest, st => if k = st then some v else findSession rest st

def setSession (k : String) (v : Session) : SessionMap → SessionMap
  | [] => [(k, v)]
  | (k', v') :: rest => if k' = k then (k, v) :: rest else (k', v') :: setSession k v rest

/-- The opportunistic sweep run inside the initiation handler: delete every
session strictly older than ten minutes (600000 ms). -/
def sweepSessions (now : Nat) (m : SessionMap) : SessionMap :=
  m.filter (fun p => decide (now - p.2.timestamp ≤ 600000))

structure DuoConfig where
  apiHostname : String
  clientId : String
  clientSecret : String
  redirectUri : String
deriving DecidableEq, Repr

inductive InitiateOutcome
  | notConfigured
  | ok (authUrl : String) (state : String)
deriving DecidableEq, Repr

/-- The GET /auth/duo-initiate handler: state is the hex form of 32 random
bytes, the verifier the base64url form of 32 random bytes (both passed here
as the byte lists drawn from the RNG), the challenge the unpadded base64url
SHA-256 of the verifier string; the session is stored with authenticated
false and then the sweep runs over the whole map. -/
def authDuoInitiate (cfg : DuoConfig) (stateBytes verifierBytes : List Nat)
    (now : Nat) (sessions : SessionMap) : InitiateOutcome × SessionMap :=
  if cfg.apiHostname = "" ∨ cfg.clientId = "" then (.notConfigured, sessions)
  else
    let state := hexEncode stateBytes
    let codeVerifier := base64urlEncode verifierBytes
    let codeChallenge := base64urlEncode (sha256 (strBytes codeVerifier))
    let sessions1 := setSession state ⟨codeVerifier, now, false, none, none, none⟩ sessions
    let sessions2 := sweepSessions now sessions1
    let authUrl := "https://" ++ cfg.apiHostname ++ "/oauth/v1/authorize?" ++
      "response_type=code&" ++
      ("client_id=" ++ encodeURIComponent cfg.clientId ++ "&") ++
      ("redirect_uri=" ++ encodeURIComponent cfg.redirectUri ++ "&") ++
      ("state=" ++ state ++ "&") ++
      ("code_challenge=" ++ codeChallenge ++ "&") ++
      "code_challenge_method=S256&" ++ "scope=openid"
    (.ok authUrl state, sessions2)

/-- Outcome of the outbound POST to the token endpoint. -/
inductive ExchangeOutcome
  | netError (msg : String)
  | httpError (status : Nat) (body : String)
  | ok (access_token : String) (refresh_token : Option String) (expires_in : Nat)
deriving DecidableEq, Repr

inductive CallbackResult
  | missingParams
  | sessionNotFound
  | exchangeFailed (msg : String)
  | success
deriving DecidableEq, Repr

structure CallbackOutcome where
  result : CallbackResult
  exchangeAttempted : Bool
  sessions : SessionMap
deriving DecidableEq, Repr

/-- The GET /auth/callback handler: missing query parameters give 400; an
unknown state gives the 400 invalid-or-expired-session reply before any
token exchange; a failed exchange leaves the session untouched; a successful
exchange mutates the session in place to authenticated true with the tokens
and an absolute expiry of now plus expires_in seconds. -/
def authCallback (code state : Option String) (exchange : ExchangeOutcome)
    (now : Nat) (sessions : SessionMap) : CallbackOutcome :=
  match code, state with
  | none, _ => ⟨.missingParams, false, sessions⟩
  | some _, none => ⟨.missingParams, false, sessions⟩
  | some c, some st =>
    if c = "" ∨ st = "" then ⟨.missingParams, false, sessions⟩
    else
      match findSession sessions st with
      | none => ⟨.sessionNotFound, false, sessions⟩
      | some sess =>
        match exchange with
        | .netError m => ⟨.exchangeFailed m, true, sessions⟩
        | .httpError s body =>
            ⟨.exchangeFailed ("Token exchange failed: " ++ toString s ++ " - " ++ body), true, sessions⟩
        | .ok tok rt ei =>
            ⟨.success, true,
             setSession st
               { sess with authenticated := true, accessToken := some tok,
                           refreshToken := rt, expiresAt := some (now + ei * 1000) }
               sessions⟩

inductive StatusReply
  | missingState
  | notFound
  | status (authenticated : Bool) (token : Option String) (expiresAt : Option Nat)
deriving DecidableEq, Repr

/-- The GET /auth/status handler: pure lookup; a missing session is reported
as authenticated false with an explanatory note, and the token field is
present only when the session is authenticated. -/
def authStatus (state : Option String) (sessions : SessionMap) : StatusReply :=
  match state with
  | none => .missingState
  | some st =>
    if st = "" then .missingState
    else
      match findSession sessions st with
      | none => .notFound
      | some sess =>
          .status sess.authenticated
            (if sess.authenticated then sess.accessToken else none)
            sess.expiresAt

/-- HTTP status of each auth/status reply: only the missing state parameter
is an error status; an unknown session is an ordinary 200. -/
def statusHttpStatus : StatusReply → Nat
  | .missingState => 400
  | .notFound => 200
  | .status _ _ _ => 200

/- ===== Duo SSE variant (the fifth entrypoint): connection registry and POST /mcp ===== -/

structure SseUser where
  username : String
  displayName : String
  email : String
deriving DecidableEq, Repr

structure SseConn where
  user : SseUser
  connectedAt : Nat
deriving DecidableEq, Repr

/-- The sseConnections Map keyed by the incrementing connection id; list
order models Map iteration order (insertion order). -/
abbrev ConnMap := List (Nat × SseConn)

/-- The connection lookup in POST /mcp: iterate the registry and take the
first connection whose user email equals the verified email. -/
def findConnectionByEmail : ConnMap → String → Option SseConn
  | [], _ => none
  | (_, c) :: rest, email =>
      if c.user.email = email then some c else findConnectionByEmail rest email

/-- Everything observable from one POST /mcp request in the Duo SSE variant:
the HTTP reply on the POST itself, the JSON-RPC messages pushed on the SSE
stream, whether introspection and the Slack call were performed, and the two
shared maps afterward. -/
structure DuoSseOutcome where
  reply : HttpReply
  sseEvents : List RpcMessage
  introspected : Bool
  slackCalled : Bool
  connections : ConnMap
  sessions : SessionMap
deriving DecidableEq, Repr

/-- The POST /mcp handler of the Duo SSE variant. A body the JSON middleware
cannot decode never reaches the handler and is rejected at the transport
level (modelled as parseReject; this variant has no JSON-RPC parse-error
branch of its own). Order inside the handler: extract token, introspect,
find the SSE connection by email, then dispatch; postToSlack throws on a
non-ok Slack reply and the catch converts any throw into a -32603 error on
the stream with a 500 on the POST. -/
def duoSseMcpPost (authHeader : Option String) (fetch : FetchOutcome)
    (conns : ConnMap) (sessions : SessionMap)
    (raw : Option McpRequest) (slack : SlackOutcome) : DuoSseOutcome :=
  match raw with
  | none => ⟨⟨400, .parseReject⟩, [], false, false, conns, sessions⟩
  | some message =>
    match extractToken authHeader with
    | none => ⟨⟨401, .errObj "Authorization token required"⟩, [], false, false, conns, sessions⟩
    | some _ =>
      match verifyDuoToken fetch with
      | .invalid => ⟨⟨401, .errObj "Invalid or expired token"⟩, [], true, false, conns, sessions⟩
      | .valid u =>
        match findConnectionByEmail conns u.email with
        | none =>
            ⟨⟨404, .errObj "No active SSE connection found. Please establish GET /mcp connection first."⟩,
             [], true, false, conns, sessions⟩
        | some conn =>
          let userName := conn.user.displayName
          if message.method = "initialize" then
            ⟨⟨200, .statusOk⟩,
             [.result message.id (.initRes "2024-11-05" "slack-mcp-server-duo" "1.0.0")],
             true, false, conns, sessions⟩
          else if message.method = "tools/list" then
            ⟨⟨200, .statusOk⟩,
             [.result message.id (.toolsList [⟨"postMessage", ["channel", "text"]⟩])],
             true, false, conns, sessions⟩
          else if message.method = "tools/call" then
            match message.params with
            | none =>
                ⟨⟨400, .errObj "Unknown tool"⟩,
                 [.error message.id (-32601) "Unknown tool: undefined"],
                 true, false, conns, sessions⟩
            | some p =>
              if p.name = some "postMessage" then
                match slack with
                | .ok ts =>
                    ⟨⟨200, .statusOk⟩,
                     [.result message.id (.content
                       ("メッセージを投稿しました（" ++ userName ++ "として）\nチャンネル: " ++
                        p.channel ++ "\nタイムスタンプ: " ++ ts) false)],
                     true, true, conns, sessions⟩
                | .apiError e =>
                    let m := if e = "" then "Slack API エラー" else e
                    ⟨⟨500, .errObj m⟩, [.error message.id (-32603) m], true, true, conns, sessions⟩
                | .exn m =>
                    ⟨⟨500, .errObj m⟩, [.error message.id (-32603) m], true, true, conns, sessions⟩
              else
                ⟨⟨400, .errObj "Unknown tool"⟩,
                 [.error message.id (-32601)
                    ("Unknown tool: " ++ (match p.name with | some n => n | none => "undefined"))],
                 true, false, conns, sessions⟩
          else if message.method.startsWith "notifications/" then
            ⟨⟨200, .statusOk⟩, [], true, false, conns, sessions⟩
          else
            ⟨⟨400, .errObj "Method not found"⟩,
             [.error message.id (-32601) "Method not found"],
             true, false, conns, sessions⟩

/- ===== Helper lemmas on the session map and the connection registry ===== -/

theorem findSession_set_self (k : String) (v : Session) (m : SessionMap) :
    findSession (setSession k v m) k = some v := by
  induction m with
  | nil => simp [setSession, findSession]
  | cons hd tl ih =>
    obtain ⟨k', v'⟩ := hd
    by_cases h : k' = k
    · simp [setSession, h, findSession]
    · simp [setSession, h, findSession, ih]

theorem findSession_filter_pass (p : String × Session → Bool) (m : SessionMap)
    (k : String) (v : Session)
    (hf : findSession m k = some v) (hp : p (k, v) = true) :
    findSession (m.filter p) k = some v := by
  induction m with
  | nil => simp [findSession] at hf
  | cons hd tl ih =>
    obtain ⟨k', v'⟩ := hd
    by_cases h : k' = k
    · subst h
      simp only [findSession, if_pos, Option.some.injEq] at hf
      subst hf
      rw [List.filter_cons, if_pos hp]
      simp [findSession]
    · simp only [findSession, if_neg h] at hf
      rw [List.filter_cons]
      by_cases hph : p (k', v') = true
      · rw [if_pos hph]
        simp only [findSession, if_neg h]
        exact ih hf
      · rw [if_neg hph]
        exact ih hf

theorem findSession_eq_none_of_keys (m : SessionMap) (k : String)
    (h : ∀ q ∈ m, q.1 ≠ k) : findSession m k = none := by
  induction m with
  | nil => rfl
  | cons hd tl ih =>
    obtain ⟨k', v'⟩ := hd
    simp only [findSession]
    rw [if_neg (h (k', v') (List.mem_cons_self _ _))]
    exact ih (fun q hq => h q (List.mem_cons_of_mem _ hq))

theorem findSession_filter_fail (p : String × Session → Bool) (m : SessionMap)
    (k : String) (v : Session)
    (hnd : (m.map Prod.fst).Nodup)
    (hf : findSession m k = some v) (hp : p (k, v) = false) :
    findSession (m.filter p) k = none := by
  induction m with
  | nil => simp [findSession] at hf
  | cons hd tl ih =>
    obtain ⟨k', v'⟩ := hd
    rw [List.map_cons, List.nodup_cons] at hnd
    by_cases h : k' = k
    · subst h
      simp only [findSession, if_pos, Option.some.injEq] at hf
      subst hf
      rw [List.filter_cons, if_neg (by simp [hp])]
      apply findSession_eq_none_of_keys
      intro q hq hk
      exact hnd.1 (List.mem_map.mpr ⟨q, List.mem_of_mem_filter hq, hk⟩)
    · simp only [findSession, if_neg h] at hf
      rw [List.filter_cons]
      by_cases hph : p (k', v') = true
      · rw [if_pos hph]
        simp only [findSession, if_neg h]
        exact ih hnd.2 hf
      · rw [if_neg hph]
        exact ih hnd.2 hf

theorem findConnectionByEmail_eq_none (conns : ConnMap) (email : String)
    (h : ∀ c ∈ conns, (Prod.snd c).user.email ≠ email) :
    findConnectionByEmail conns email = none := by
  induction conns with
  | nil => rfl
  | cons hd tl ih =>
    obtain ⟨i, c⟩ := hd
    simp only [findConnectionByEmail]
    rw [if_neg (h (i, c) (List.mem_cons_self _ _))]
    exact ih (fun q hq => h q (List.mem_cons_of_mem _ hq))

/- ===== Helper lemmas on the space split used by extractToken ===== -/

theorem splitSpaceAux_ne_nil (l acc : List Char) : splitSpaceAux l acc ≠ [] := by
  induction l generalizing acc with
  | nil => simp [splitSpaceAux]
  | cons c rest ih =>
    by_cases h : c = Char.ofNat 32 <;> simp [splitSpaceAux, h, ih]

theorem splitSpaceAux_single (l : List Char) (acc : List Char) (z : List Char)
    (h : splitSpaceAux l acc = [z]) :
    z = acc.reverse ++ l ∧ (Char.ofNat 32) ∉ l := by
  induction l generalizing acc with
  | nil =>
    simp only [splitSpaceAux, List.cons.injEq] at h
    exact ⟨by rw [← h.1]; simp, by simp⟩
  | cons c rest ih =>
    by_cases hc : c = Char.ofNat 32
    · simp only [splitSpaceAux, if_pos hc, List.cons.injEq] at h
      exact absurd h.2.symm (Ne.symm (splitSpaceAux_ne_nil rest []))
    · simp only [splitSpaceAux, if_neg hc] at h
      obtain ⟨hz, hni⟩ := ih (c :: acc) h
      refine ⟨by rw [hz]; simp, ?_⟩
      intro hmem
      rcases List.mem_cons.mp hmem with h1 | h1
      · exact hc h1.symm
      · exact hni h1

theorem splitSpaceAux_pair (l : List Char) (acc x y : List Char)
    (h : splitSpaceAux l acc = [x, y]) :
    acc.reverse ++ l = x ++ (Char.ofNat 32) :: y ∧ (Char.ofNat 32) ∉ y := by
  induction l generalizing acc with
  | nil => simp [splitSpaceAux] at h
  | cons c rest ih =>
    by_cases hc : c = Char.ofNat 32
    · simp only [splitSpaceAux, if_pos hc, List.cons.injEq] at h
      obtain ⟨h1, h2⟩ := h
      obtain ⟨hy, hny⟩ := splitSpaceAux_single rest [] y h2
      have hy' : y = rest := by simpa using hy
      subst hy'
      subst h1
      subst hc
      exact ⟨by simp, hny⟩
    · simp only [splitSpaceAux, if_neg hc] at h
      obtain ⟨he, hny⟩ := ih (c :: acc) h
      constructor
      · rw [← he]; simp
      · exact hny

/-- Inversion of extractToken: a token is returned only for a header that is
exactly the word Bearer, one space, and a token containing no space. -/
theorem extractToken_some (h t : String)
    (he : extractToken (some h) = some t) :
    h = "Bearer " ++ t ∧ (Char.ofNat 32) ∉ t.data := by
  simp only [extractToken] at he
  by_cases h0 : h = ""
  · simp [h0] at he
  · rw [if_neg h0] at he
    by_cases hc : (splitSpace h).length = 2 ∧ (splitSpace h).headD "" = "Bearer"
    · rw [if_pos hc] at he
      obtain ⟨hlen, hhead⟩ := hc
      unfold splitSpace at hlen hhead he
      rw [List.length_map] at hlen
      obtain ⟨x, y, hxy⟩ := List.length_eq_two.mp hlen
      rw [hxy] at hhead he
      simp only [List.map_cons, List.map_nil, List.headD_cons, List.getD] at hhead he
      obtain ⟨hdata, hns⟩ := splitSpaceAux_pair h.data [] x y hxy
      simp only [List.reverse_nil, List.nil_append] at hdata
      have hx : x = "Bearer".data := congrArg String.data hhead
      have ht : t = String.mk y := by
        simpa using he.symm
      subst ht
      constructor
      · apply String.ext
        rw [String.data_append, hdata, hx]
        rfl
      · exact hns
    · rw [if_neg hc] at he
      exact absurd he (by simp)

/-- A header that is absent or not of the exact two-part Bearer form yields
no token. -/
theorem extractToken_none_of_malformed (hdr : Option String)
    (H : ∀ t : String, (Char.ofNat 32) ∉ t.data → hdr ≠ some ("Bearer " ++ t)) :
    extractToken hdr = none := by
  cases hx : extractToken hdr with
  | none => rfl
  | some t =>
    cases hdr with
    | none => simp [extractToken] at hx
    | some h =>
      obtain ⟨hh, hs⟩ := extractToken_some h t hx
      exact absurd (by rw [← hh]) (H t hs)

/- ===== Claim theorems ===== -/

/-- Claim C4: for every introspection outcome the gate returns a tagged
result (never an escaping exception): netError, a non-2xx status, an
unparseable body and an inactive token all give valid false, and the result
is valid exactly when the endpoint answered 2xx with active true. -/
theorem c4_verify_gate :
  (∀ o : FetchOutcome, verifyDuoToken o = .invalid ∨ ∃ u, verifyDuoToken o = .valid u) ∧
  verifyDuoToken .netError = .invalid ∧
  (∀ (status : Nat) (body : Option IntroBody),
    (verifyDuoToken (.resp status body)).isValid = true ↔
      (200 ≤ status ∧ status < 300 ∧ ∃ d, body = some d ∧ d.active = true)) := by
  refine ⟨?_, rfl, ?_⟩
  · intro o
    cases hv : verifyDuoToken o with
    | invalid => exact .inl rfl
    | valid u => exact .inr ⟨u, rfl⟩
  · intro status body
    constructor
    · intro hv
      simp only [verifyDuoToken] at hv
      by_cases hr : 200 ≤ status ∧ status < 300
      · rw [if_pos hr] at hv
        cases body with
        | none => simp [VerifyResult.isValid] at hv
        | some d =>
          by_cases ha : d.active = true
          · exact ⟨hr.1, hr.2, d, rfl, ha⟩
          · simp [ha, VerifyResult.isValid] at hv
      · rw [if_neg hr] at hv
        simp [VerifyResult.isValid] at hv
    · rintro ⟨h1, h2, d, rfl, ha⟩
      simp [verifyDuoToken, h1, h2, ha, VerifyResult.isValid]

theorem c4_verify_gate_witness :
    (verifyDuoToken (.resp 200 (some ⟨true, "alice", none, "alice@example.com", 99⟩))).isValid
      = true :=
  (c4_verify_gate.2.2 200 _).mpr ⟨by decide, by decide, _, rfl, rfl⟩

/-- Claim C7: on all four variants, a valid initialize request is answered
with the request id echoed unchanged and protocolVersion equal to the single
fixed supported version string 2024-11-05. -/
theorem c7_initialize_echo :
  (∀ (req : McpRequest) (slack : SlackOutcome), req.method = "initialize" →
    wsHandleRaw (some req) slack =
      some (.result req.id (.initRes "2024-11-05" "slack-mcp" "1.0.0"))) ∧
  (∀ (req : McpRequest) (slack : SlackOutcome), req.method = "initialize" →
    httpMcpPost (some req) slack =
      ⟨200, .rpc (.result req.id (.initRes "2024-11-05" "slack-mcp-http" "1.0.0"))⟩) ∧
  (∀ (duoEnabled : Bool) (userName : String) (req : McpRequest) (slack : SlackOutcome),
    req.method = "initialize" →
    duoHttpDispatch duoEnabled userName (some req) slack =
      ⟨200, .rpc (.result req.id (.initRes "2024-11-05" "slack-mcp-http-duo" "1.0.0"))⟩) ∧
  (∀ (authHeader : Option String) (fetch : FetchOutcome) (conns : ConnMap)
      (sessions : SessionMap) (req : McpRequest) (slack : SlackOutcome)
      (tok : String) (u : VerifiedIdentity) (conn : SseConn),
    req.method = "initialize" →
    extractToken authHeader = some tok →
    verifyDuoToken fetch = .valid u →
    findConnectionByEmail conns u.email = some conn →
    (duoSseMcpPost authHeader fetch conns sessions (some req) slack).sseEvents =
      [.result req.id (.initRes "2024-11-05" "slack-mcp-server-duo" "1.0.0")] ∧
    (duoSseMcpPost authHeader fetch conns sessions (some req) slack).reply = ⟨200, .statusOk⟩) := by
  refine ⟨?_, ?_, ?_, ?_⟩
  · intro req slack h
    simp [wsHandleRaw, wsDispatch, h]
  · intro req slack h
    simp [httpMcpPost, h]
  · intro d u req slack h
    simp [duoHttpDispatch, h]
  · intro authHeader fetch conns sessions req slack tok u conn h h1 h2 h3
    constructor <;> simp [duoSseMcpPost, h, h1, h2, h3]

theorem c7_initialize_echo_witness :
    wsHandleRaw (some ⟨"initialize", .num 7, none⟩) (.ok "1") =
      some (.result (.num 7) (.initRes "2024-11-05" "slack-mcp" "1.0.0")) ∧
    httpMcpPost (some ⟨"initialize", .str "a", none⟩) (.ok "1") =
      ⟨200, .rpc (.result (.str "a") (.initRes "2024-11-05" "slack-mcp-http" "1.0.0"))⟩ ∧
    duoHttpDispatch true "Bob" (some ⟨"initialize", .num 3, none⟩) (.ok "1") =
      ⟨200, .rpc (.result (.num 3) (.initRes "2024-11-05" "slack-mcp-http-duo" "1.0.0"))⟩ ∧
    (duoSseMcpPost (some "Bearer tok123") (.resp 200 (some ⟨true, "bob", some "Bob", "bob@example.com", 9⟩))
        [(1, ⟨⟨"bob", "Bob", "bob@example.com"⟩, 0⟩)] [] (some ⟨"initialize", .num 5, none⟩)
        (.ok "1")).sseEvents =
      [.result (.num 5) (.initRes "2024-11-05" "slack-mcp-server-duo" "1.0.0")] :=
  ⟨c7_initialize_echo.1 _ _ rfl,
   c7_initialize_echo.2.1 _ _ rfl,
   c7_initialize_echo.2.2.1 _ _ _ _ rfl,
   (c7_initialize_echo.2.2.2 _ _ _ [] _ _ "tok123" ⟨"bob", "Bob", "bob@example.com", 9⟩
      ⟨⟨"bob", "Bob", "bob@example.com"⟩, 0⟩ rfl (by decide) (by decide) (by decide)).1⟩

/-- Claim C8: a protected request whose Authorization header is absent or
not of the exact two-part Bearer form is rejected with 401 immediately, with
no introspection network call, on both the Duo HTTP middleware and the Duo
SSE POST handler. -/
theorem c8_auth_gate :
  (∀ (authHeader : Option String) (fetch : FetchOutcome),
    (∀ t : String, (Char.ofNat 32) ∉ t.data → authHeader ≠ some ("Bearer " ++ t)) →
    authenticateRequest true authHeader fetch =
      ⟨.reject ⟨401, .rpc (.error .null (-32600) "Authorization token required")⟩, false⟩) ∧
  (∀ (authHeader : Option String) (fetch : FetchOutcome) (conns : ConnMap)
      (sessions : SessionMap) (msg : McpRequest) (slack : SlackOutcome),
    (∀ t : String, (Char.ofNat 32) ∉ t.data → authHeader ≠ some ("Bearer " ++ t)) →
    duoSseMcpPost authHeader fetch conns sessions (some msg) slack =
      ⟨⟨401, .errObj "Authorization token required"⟩, [], false, false, conns, sessions⟩) := by
  constructor
  · intro authHeader fetch H
    have hn := extractToken_none_of_malformed authHeader H
    simp [authenticateRequest, hn]
  · intro authHeader fetch conns sessions msg slack H
    have hn := extractToken_none_of_malformed authHeader H
    simp [duoSseMcpPost, hn]

theorem c8_auth_gate_witness :
    authenticateRequest true none (.resp 200 none) =
      ⟨.reject ⟨401, .rpc (.error .null (-32600) "Authorization token required")⟩, false⟩ ∧
    duoSseMcpPost none (.resp 200 none) [] [] (some ⟨"initialize", .num 1, none⟩) (.ok "1") =
      ⟨⟨401, .errObj "Authorization token required"⟩, [], false, false, [], []⟩ :=
  ⟨c8_auth_gate.1 none _ (fun _ _ h => Option.noConfusion h),
   c8_auth_gate.2 none _ [] [] _ _ (fun _ _ h => Option.noConfusion h)⟩

/-- Claim C10: in the Duo SSE variant, an authenticated POST /mcp with no
registered SSE connection matching the verified email is answered 404 before
any dispatch: no SSE event is sent, no Slack call is made, and both shared
maps are unchanged. -/
theorem c10_no_matching_connection :
  ∀ (authHeader : Option String) (fetch : FetchOutcome) (conns : ConnMap)
    (sessions : SessionMap) (msg : McpRequest) (slack : SlackOutcome)
    (tok : String) (u : VerifiedIdentity),
    extractToken authHeader = some tok →
    verifyDuoToken fetch = .valid u →
    (∀ c ∈ conns, (Prod.snd c).user.email ≠ u.email) →
    duoSseMcpPost authHeader fetch conns sessions (some msg) slack =
      ⟨⟨404, .errObj "No active SSE connection found. Please establish GET /mcp connection first."⟩,
       [], true, false, conns, sessions⟩ := by
  intro authHeader fetch conns sessions msg slack tok u h1 h2 h3
  have hc := findConnectionByEmail_eq_none conns u.email h3
  simp [duoSseMcpPost, h1, h2, hc]

theorem c10_no_matching_connection_witness :
    duoSseMcpPost (some "Bearer abc") (.resp 200 (some ⟨true, "bob", some "Bob", "bob@example.com", 9⟩))
        [(1, ⟨⟨"carol", "Carol", "carol@example.com"⟩, 0⟩)] [(
          "s1", ⟨"v", 0, false, none, none, none⟩)]
        (some ⟨"tools/call", .num 2, some ⟨some "postMessage", "C123", "hi"⟩⟩) (.ok "9") =
      ⟨⟨404, .errObj "No active SSE connection found. Please establish GET /mcp connection first."⟩,
       [], true, false, [(1, ⟨⟨"carol", "Carol", "carol@example.com"⟩, 0⟩)],
       [("s1", ⟨"v", 0, false, none, none, none⟩)]⟩ :=
  c10_no_matching_connection _ _ _ _ _ _ "abc" ⟨"bob", "Bob", "bob@example.com", 9⟩
    (by decide) (by decide) (by decide)

/-- Claim C2, counterexample: the claim asserts that a tools/call with an
unregistered tool name yields a JSON-RPC error with code -32601 on every
transport variant, WebSocket included. On the WebSocket variant the dispatch
leaves response null for an unknown tool and sends nothing at all, so at
this concrete request no error reply (and no reply of any kind) is
produced. -/
theorem c2_counterexample_ws_silent :
    wsHandleRaw (some ⟨"tools/call", .num 1, some ⟨some "bogus_tool", "C123", "hi"⟩⟩)
      (.ok "1.0") = none := rfl

/-- Claim C2, amended: a tools/call with an unregistered tool name yields a
JSON-RPC error with code -32601 on the plain HTTP, Duo HTTP and Duo SSE
variants; the WebSocket variant sends no response at all in that case. -/
theorem c2_unknown_tool :
  (∀ (req : McpRequest) (p : ToolCallParams) (slack : SlackOutcome),
    req.method = "tools/call" → req.params = some p →
    p.name ≠ some "slack_post_message" →
    httpMcpPost (some req) slack = ⟨400, .rpc (.error req.id (-32601) "Method not found")⟩ ∧
    (∀ (duoEnabled : Bool) (userName : String),
      duoHttpDispatch duoEnabled userName (some req) slack =
        ⟨400, .rpc (.error req.id (-32601) "Method not found")⟩) ∧
    wsHandleRaw (some req) slack = none) ∧
  (∀ (authHeader : Option String) (fetch : FetchOutcome) (conns : ConnMap)
      (sessions : SessionMap) (req : McpRequest) (p : ToolCallParams) (slack : SlackOutcome)
      (tok : String) (u : VerifiedIdentity) (conn : SseConn),
    req.method = "tools/call" → req.params = some p → p.name ≠ some "postMessage" →
    extractToken authHeader = some tok →
    verifyDuoToken fetch = .valid u →
    findConnectionByEmail conns u.email = some conn →
    (duoSseMcpPost authHeader fetch conns sessions (some req) slack).sseEvents =
      [.error req.id (-32601)
        ("Unknown tool: " ++ (match p.name with | some n => n | none => "undefined"))]) := by
  constructor
  · intro req p slack h1 h2 h3
    refine ⟨?_, ?_, ?_⟩
    · simp [httpMcpPost, h1, h2, h3]
    · intro d u
      simp [duoHttpDispatch, h1, h2, h3]
    · simp [wsHandleRaw, wsDispatch, h1, h2, h3]
  · intro authHeader fetch conns sessions req p slack tok u conn h1 h2 h3 h4 h5 h6
    simp [duoSseMcpPost, h1, h2, h3, h4, h5, h6]

theorem c2_unknown_tool_witness :
    httpMcpPost (some ⟨"tools/call", .num 4, some ⟨some "bogus_tool", "C123", "hi"⟩⟩) (.ok "1") =
      ⟨400, .rpc (.error (.num 4) (-32601) "Method not found")⟩ ∧
    (duoSseMcpPost (some "Bearer tok123")
        (.resp 200 (some ⟨true, "bob", some "Bob", "bob@example.com", 9⟩))
        [(1, ⟨⟨"bob", "Bob", "bob@example.com"⟩, 0⟩)] []
        (some ⟨"tools/call", .num 6, some ⟨some "bogus_tool", "C123", "hi"⟩⟩)
        (.ok "1")).sseEvents =
      [.error (.num 6) (-32601) "Unknown tool: bogus_tool"] :=
  ⟨(c2_unknown_tool.1 _ ⟨some "bogus_tool", "C123", "hi"⟩ _ rfl rfl (by decide)).1,
   c2_unknown_tool.2 _ _ _ [] _ ⟨some "bogus_tool", "C123", "hi"⟩ _ "tok123"
     ⟨"bob", "Bob", "bob@example.com", 9⟩ ⟨⟨"bob", "Bob", "bob@example.com"⟩, 0⟩
     rfl rfl (by decide) (by decide) (by decide) (by decide)⟩

/-- Claim C3, counterexample: the claim asserts that a body that is not
valid JSON yields the parse-error envelope with code -32700 and id null on
every transport variant. The Duo SSE variant has no parse-error branch of
its own: an undecodable body is rejected by the JSON body middleware before
the handler runs, and at this concrete input neither the POST reply nor the
SSE stream carries the claimed envelope (the stream carries nothing). -/
theorem c3_counterexample_duo_sse :
    (duoSseMcpPost (some "Bearer tok123")
        (.resp 200 (some ⟨true, "bob", some "Bob", "bob@example.com", 9⟩))
        [(1, ⟨⟨"bob", "Bob", "bob@example.com"⟩, 0⟩)] [] none (.ok "1")).sseEvents = [] ∧
    (duoSseMcpPost (some "Bearer tok123")
        (.resp 200 (some ⟨true, "bob", some "Bob", "bob@example.com", 9⟩))
        [(1, ⟨⟨"bob", "Bob", "bob@example.com"⟩, 0⟩)] [] none (.ok "1")).reply.body ≠
      .rpc (.error .null (-32700) "Parse error") := by
  constructor
  · rfl
  · decide

/-- Claim C3, amended: a body that fails to decode as JSON yields exactly
the envelope with jsonrpc 2.0, id null and error code -32700 only on the
WebSocket variant, whose handler runs JSON.parse itself inside its try
block; on the plain HTTP, Duo HTTP and Duo SSE variants the JSON body
middleware rejects the malformed body with a default 400 before the handler
runs (and before authentication on the Duo variants), so no -32700 envelope
is ever produced for a decode failure there. -/
theorem c3_parse_error :
  (∀ slack : SlackOutcome,
    wsHandleRaw none slack = some (.error .null (-32700) "Parse error")) ∧
  (∀ slack : SlackOutcome,
    httpMcpPost none slack = ⟨400, .parseReject⟩) ∧
  (∀ (duoEnabled : Bool) (userName : String) (slack : SlackOutcome),
    duoHttpDispatch duoEnabled userName none slack = ⟨400, .parseReject⟩) ∧
  (∀ (duoEnabled : Bool) (authHeader : Option String) (fetch : FetchOutcome)
      (slack : SlackOutcome),
    duoHttpMcpPost duoEnabled authHeader fetch none slack = (⟨400, .parseReject⟩, false)) ∧
  (∀ (authHeader : Option String) (fetch : FetchOutcome) (conns : ConnMap)
      (sessions : SessionMap) (slack : SlackOutcome),
    (duoSseMcpPost authHeader fetch conns sessions none slack).sseEvents = [] ∧
    (duoSseMcpPost authHeader fetch conns sessions none slack).reply = ⟨400, .parseReject⟩) := by
  exact ⟨fun _ => rfl, fun _ => rfl, fun _ _ _ => rfl, fun _ _ _ _ => rfl,
         fun _ _ _ _ _ => ⟨rfl, rfl⟩⟩

/-- Claim C9: a tools/call of the Slack-post tool where Slack answers ok
false with error e is relayed to the caller as a response flagged as an
error that carries e: a result with isError true on the WebSocket, plain
HTTP and Duo HTTP variants, and a JSON-RPC error envelope (code -32603,
message e) on the Duo SSE variant. -/
theorem c9_slack_error_relay :
  ∀ e : String, e ≠ "" →
  (∀ (req : McpRequest) (p : ToolCallParams),
    req.method = "tools/call" → req.params = some p →
    p.name = some "slack_post_message" →
    wsHandleRaw (some req) (.apiError e) =
      some (.result req.id (.content ("Error: " ++ e) true)) ∧
    httpMcpPost (some req) (.apiError e) =
      ⟨200, .rpc (.result req.id (.content ("Error: " ++ e) true))⟩ ∧
    (∀ (duoEnabled : Bool) (userName : String),
      duoHttpDispatch duoEnabled userName (some req) (.apiError e) =
        ⟨200, .rpc (.result req.id (.content ("Error: " ++ e) true))⟩)) ∧
  (∀ (authHeader : Option String) (fetch : FetchOutcome) (conns : ConnMap)
      (sessions : SessionMap) (req : McpRequest) (p : ToolCallParams)
      (tok : String) (u : VerifiedIdentity) (conn : SseConn),
    req.method = "tools/call" → req.params = some p → p.name = some "postMessage" →
    extractToken authHeader = some tok →
    verifyDuoToken fetch = .valid u →
    findConnectionByEmail conns u.email = some conn →
    (duoSseMcpPost authHeader fetch conns sessions (some req) (.apiError e)).sseEvents =
      [.error req.id (-32603) e] ∧
    (duoSseMcpPost authHeader fetch conns sessions (some req) (.apiError e)).reply =
      ⟨500, .errObj e⟩) := by
  intro e he
  constructor
  · intro req p h1 h2 h3
    refine ⟨?_, ?_, ?_⟩
    · simp [wsHandleRaw, wsDispatch, h1, h2, h3]
    · simp [httpMcpPost, h1, h2, h3]
    · intro d u
      simp [duoHttpDispatch, h1, h2, h3]
  · intro authHeader fetch conns sessions req p tok u conn h1 h2 h3 h4 h5 h6
    constructor <;> simp [duoSseMcpPost, h1, h2, h3, h4, h5, h6, he]

theorem c9_slack_error_relay_witness :
    wsHandleRaw (some ⟨"tools/call", .num 8, some ⟨some "slack_post_message", "C123", "hi"⟩⟩)
      (.apiError "channel_not_found") =
      some (.result (.num 8) (.content "Error: channel_not_found" true)) ∧
    (duoSseMcpPost (some "Bearer tok123")
        (.resp 200 (some ⟨true, "bob", some "Bob", "bob@example.com", 9⟩))
        [(1, ⟨⟨"bob", "Bob", "bob@example.com"⟩, 0⟩)] []
        (some ⟨"tools/call", .num 9, some ⟨some "postMessage", "C123", "hi"⟩⟩)
        (.apiError "channel_not_found")).sseEvents =
      [.error (.num 9) (-32603) "channel_not_found"] :=
  ⟨((c9_slack_error_relay "channel_not_found" (by decide)).1 _
      ⟨some "slack_post_message", "C123", "hi"⟩ rfl rfl rfl).1,
   ((c9_slack_error_relay "channel_not_found" (by decide)).2 _ _ _ [] _
      ⟨some "postMessage", "C123", "hi"⟩ "tok123" ⟨"bob", "Bob", "bob@example.com", 9⟩
      ⟨⟨"bob", "Bob", "bob@example.com"⟩, 0⟩ rfl rfl rfl (by decide) (by decide) (by decide)).1⟩

/-- Claim C5: at every sweep (the one the initiation handler runs over the
whole session map), a session created more than ten minutes before the sweep
time is absent afterward, and a session created at most ten minutes before
(for example one minute prior) is still present; and the initiation handler
does apply exactly this sweep to the map holding the newly stored session. -/
theorem c5_session_sweep :
  (∀ (sessions : SessionMap) (now : Nat) (k : String) (s : Session),
    (sessions.map Prod.fst).Nodup →
    findSession sessions k = some s →
    (now - s.timestamp > 600000 → findSession (sweepSessions now sessions) k = none) ∧
    (now - s.timestamp ≤ 600000 → findSession (sweepSessions now sessions) k = some s)) ∧
  (∀ (cfg : DuoConfig) (stateBytes verifierBytes : List Nat) (now : Nat)
      (sessions : SessionMap),
    cfg.apiHostname ≠ "" → cfg.clientId ≠ "" →
    (authDuoInitiate cfg stateBytes verifierBytes now sessions).2 =
      sweepSessions now (setSession (hexEncode stateBytes)
        ⟨base64urlEncode verifierBytes, now, false, none, none, none⟩ sessions)) := by
  constructor
  · intro sessions now k s hnd hf
    constructor
    · intro hold
      apply findSession_filter_fail _ _ _ _ hnd hf
      show decide (now - s.timestamp ≤ 600000) = false
      simp only [decide_eq_false_iff_not, not_le]
      omega
    · intro hyoung
      apply findSession_filter_pass _ _ _ _ hf
      show decide (now - s.timestamp ≤ 600000) = true
      simpa using hyoung
  · intro cfg sb vb now sessions h1 h2
    have hcond : ¬(cfg.apiHostname = "" ∨ cfg.clientId = "") := by simp [h1, h2]
    simp only [authDuoInitiate, if_neg hcond]

theorem c5_session_sweep_witness :
    findSession (sweepSessions 700000
      [("old", ⟨"v", 0, false, none, none, none⟩),
       ("new", ⟨"w", 660000, false, none, none, none⟩)]) "old" = none ∧
    findSession (sweepSessions 700000
      [("old", ⟨"v", 0, false, none, none, none⟩),
       ("new", ⟨"w", 660000, false, none, none, none⟩)]) "new" =
      some ⟨"w", 660000, false, none, none, none⟩ :=
  ⟨(c5_session_sweep.1 _ 700000 "old" ⟨"v", 0, false, none, none, none⟩
      (by decide) (by decide)).1 (by decide),
   (c5_session_sweep.1 _ 700000 "new" ⟨"w", 660000, false, none, none, none⟩
      (by decide) (by decide)).2 (by decide)⟩

/-- Claim C6: a callback whose token exchange succeeds mutates exactly the
looked-up session in place to authenticated true with the tokens stored and
an expiry of now plus expires_in seconds, after which auth/status reports
authenticated true with that token; a status query for a missing session is
an ordinary 200 reporting authenticated false, and the token field of a
status reply is populated only when the session is authenticated. -/
theorem c6_callback_success_and_status :
  (∀ (sessions : SessionMap) (st : String) (sess : Session) (code tok : String)
      (rt : Option String) (ei now : Nat),
    code ≠ "" → st ≠ "" → findSession sessions st = some sess →
    authCallback (some code) (some st) (.ok tok rt ei) now sessions =
      ⟨.success, true,
       setSession st { sess with authenticated := true, accessToken := some tok, refreshToken := rt, expiresAt := some (now + ei * 1000) } sessions⟩ ∧
    findSession (authCallback (some code) (some st) (.ok tok rt ei) now sessions).sessions st =
      some { sess with authenticated := true, accessToken := some tok, refreshToken := rt, expiresAt := some (now + ei * 1000) } ∧
    authStatus (some st) (authCallback (some code) (some st) (.ok tok rt ei) now sessions).sessions =
      .status true (some tok) (some (now + ei * 1000))) ∧
  (∀ (sessions : SessionMap) (st : String), st ≠ "" → findSession sessions st = none →
    authStatus (some st) sessions = .notFound ∧
    statusHttpStatus (authStatus (some st) sessions) = 200) ∧
  (∀ (sessions : SessionMap) (st : String) (sess : Session), st ≠ "" →
    findSession sessions st = some sess →
    authStatus (some st) sessions =
      .status sess.authenticated (if sess.authenticated then sess.accessToken else none)
        sess.expiresAt) := by
  refine ⟨?_, ?_, ?_⟩
  · intro sessions st sess code tok rt ei now h1 h2 h3
    have hcall : authCallback (some code) (some st) (.ok tok rt ei) now sessions =
        ⟨.success, true,
         setSession st { sess with authenticated := true, accessToken := some tok, refreshToken := rt, expiresAt := some (now + ei * 1000) } sessions⟩ := by
      simp [authCallback, h1, h2, h3]
    refine ⟨hcall, ?_, ?_⟩
    · rw [hcall]
      exact findSession_set_self _ _ _
    · rw [hcall]
      simp [authStatus, h2, findSession_set_self]
  · intro sessions st h1 h2
    constructor
    · simp [authStatus, h1, h2]
    · simp [statusHttpStatus, authStatus, h1, h2]
  · intro sessions st sess h1 h2
    simp [authStatus, h1, h2]

theorem c6_callback_success_and_status_witness :
    authStatus (some "st1")
      (authCallback (some "c") (some "st1") (.ok "tokA" (some "r") 60) 1000
        [("st1", ⟨"ver", 5, false, none, none, none⟩)]).sessions =
      .status true (some "tokA") (some 61000) ∧
    authStatus (some "zz") [] = .notFound :=
  ⟨(c6_callback_success_and_status.1 _ "st1" ⟨"ver", 5, false, none, none, none⟩
      "c" "tokA" (some "r") 60 1000 (by decide) (by decide) (by decide)).2.2,
   (c6_callback_success_and_status.2.1 [] "zz" (by decide) rfl).1⟩

/-- Claim C1: every initiation stores a session under the returned state
with authenticated false, and the code challenge embedded in the returned
authorization URL is the unpadded base64url SHA-256 digest of the code
verifier stored in that session; and a callback for a state with no stored
session fails with the session-not-found reply without attempting the token
exchange. -/
theorem c1_pkce_and_unknown_state :
  (∀ (cfg : DuoConfig) (stateBytes verifierBytes : List Nat) (now : Nat)
      (sessions : SessionMap),
    cfg.apiHostname ≠ "" → cfg.clientId ≠ "" →
    ∃ url st, (authDuoInitiate cfg stateBytes verifierBytes now sessions).1 = .ok url st ∧
      ∃ sess,
        findSession (authDuoInitiate cfg stateBytes verifierBytes now sessions).2 st = some sess ∧
        sess.authenticated = false ∧
        ∃ pre post,
          url = pre ++ ("code_challenge=" ++
            base64urlEncode (sha256 (strBytes sess.codeVerifier)) ++ "&") ++ post) ∧
  (∀ (code st : String) (exchange : ExchangeOutcome) (now : Nat) (sessions : SessionMap),
    code ≠ "" → st ≠ "" → findSession sessions st = none →
    authCallback (some code) (some st) exchange now sessions =
      ⟨.sessionNotFound, false, sessions⟩) := by
  constructor
  · intro cfg sb vb now sessions h1 h2
    have hcond : ¬(cfg.apiHostname = "" ∨ cfg.clientId = "") := by simp [h1, h2]
    have heq : authDuoInitiate cfg sb vb now sessions =
        (.ok ("https://" ++ cfg.apiHostname ++ "/oauth/v1/authorize?" ++ "response_type=code&" ++
           ("client_id=" ++ encodeURIComponent cfg.clientId ++ "&") ++
           ("redirect_uri=" ++ encodeURIComponent cfg.redirectUri ++ "&") ++
           ("state=" ++ hexEncode sb ++ "&") ++
           ("code_challenge=" ++ base64urlEncode (sha256 (strBytes (base64urlEncode vb))) ++ "&") ++
           "code_challenge_method=S256&" ++ "scope=openid") (hexEncode sb),
         sweepSessions now (setSession (hexEncode sb)
           ⟨base64urlEncode vb, now, false, none, none, none⟩ sessions)) := by
      simp only [authDuoInitiate, if_neg hcond]
    refine ⟨_, hexEncode sb, by rw [heq],
      ⟨base64urlEncode vb, now, false, none, none, none⟩, ?_, rfl, ?_⟩
    · rw [heq]
      apply findSession_filter_pass _ _ _ _ (findSession_set_self _ _ _)
      show decide (now - now ≤ 600000) = true
      simp
    · refine ⟨"https://" ++ cfg.apiHostname ++ "/oauth/v1/authorize?" ++ "response_type=code&" ++
        ("client_id=" ++ encodeURIComponent cfg.clientId ++ "&") ++
        ("redirect_uri=" ++ encodeURIComponent cfg.redirectUri ++ "&") ++
        ("state=" ++ hexEncode sb ++ "&"),
        "code_challenge_method=S256&" ++ "scope=openid", ?_⟩
      simp [String.append_assoc]
  · intro code st exchange now sessions h1 h2 h3
    simp [authCallback, h1, h2, h3]

theorem c1_pkce_and_unknown_state_witness :
    (∃ url st,
      (authDuoInitiate ⟨"duo.example.com", "cid", "sec", "https://x/cb"⟩
        [1, 2] [3, 4, 5] 0 []).1 = .ok url st ∧
      ∃ sess,
        findSession (authDuoInitiate ⟨"duo.example.com", "cid", "sec", "https://x/cb"⟩
          [1, 2] [3, 4, 5] 0 []).2 st = some sess ∧
        sess.authenticated = false ∧
        ∃ pre post,
          url = pre ++ ("code_challenge=" ++
            base64urlEncode (sha256 (strBytes sess.codeVerifier)) ++ "&") ++ post) ∧
    authCallback (some "c") (some "nosuch") (.ok "t" none 1) 0 [] =
      ⟨.sessionNotFound, false, []⟩ :=
  ⟨c1_pkce_and_unknown_state.1 ⟨"duo.example.com", "cid", "sec", "https://x/cb"⟩
      [1, 2] [3, 4, 5] 0 [] (by decide) (by decide),
   c1_pkce_and_unknown_state.2 "c" "nosuch" _ 0 [] (by decide) (by decide) rfl⟩
